import Mathlib

/-!
Shallow embedding of `opus-sys/build.rs` (the acquisition / build-orchestration
pipeline of the opus-rs repository).

External effects are modelled by a `World` record: the environment variables the
script reads, a filesystem-existence oracle (`fs::metadata(p).is_ok()`), a
process-spawn oracle mapping each spawned command to its outcome, and the
result of the `pkg_config` probe.  Each Rust function becomes a Lean function
from `World` to an event trace (what was probed / spawned / emitted) paired
with its result.  Paths are strings with `pathPush` modelling Unix
`PathBuf::push` (an absolute second argument replaces the first).  String
searches from the Rust code (`str::contains`, `str::rfind`, `split_at`,
`trim`) are modelled on the underlying character lists; the strings involved
are ASCII, where Rust's byte indices coincide with character indices.
-/

/-- Boolean list-prefix test (model of Rust's prefix matching on chars). -/
def listPref : List Char → List Char → Bool
  | [], _ => true
  | _ :: _, [] => false
  | a :: t, b :: u => a == b && listPref t u

/-- Boolean substring test: `containsSub needle hay` models Rust
`hay.contains(needle)` at the character level. -/
def containsSub (needle : List Char) : List Char → Bool
  | [] => needle.isEmpty
  | a :: t => listPref needle (a :: t) || containsSub needle t

/-- Model of Rust `s.contains(pat)`. -/
def rustContains (s pat : String) : Bool := containsSub pat.data s.data

/-- Index of the last occurrence of `'-'` in a character list; models Rust
`s.rfind('-')` (byte index = character index for the ASCII strings involved). -/
def rustRfindDash : List Char → Option Nat
  | [] => none
  | a :: t =>
    match rustRfindDash t with
    | some i => some (i + 1)
    | none => if a == '-' then some 0 else none

/-- ASCII whitespace test, for modelling Rust `str::trim`. -/
def isWS (c : Char) : Bool := c == ' ' || c == '\t' || c == '\n' || c == '\r'

/-- Model of Rust `s.trim()` on the character list. -/
def trimChars (l : List Char) : List Char :=
  ((l.dropWhile isWS).reverse.dropWhile isWS).reverse

/-- Paths are strings (Unix path syntax). -/
abbrev FsPath := String

/-- Model of Unix `PathBuf::push` / `PathBuf::join`: pushing an absolute path
replaces the receiver. -/
def pathPush (a b : FsPath) : FsPath :=
  if listPref ['/'] b.data then b else a ++ "/" ++ b

/-- The pinned version string (`fn version`). -/
def version : String := "1.3.1"

/-- Result of a successful `pkg_config::probe_library` call. -/
structure PkgLibrary where
  include_paths : List FsPath
  link_paths : List FsPath
deriving DecidableEq, Repr

/-- The `Paths` struct of build.rs. -/
structure Paths where
  include_paths : List FsPath
  link_paths : List FsPath
deriving DecidableEq, Repr

/-- A spawned external command: program, arguments, working directory. -/
structure CmdSpec where
  prog : String
  args : List String
  cwd : FsPath
deriving DecidableEq, Repr

/-- Outcome of spawning a command: the spawn itself may fail, or the process
runs and exits with success/failure plus captured stdout/stderr. -/
inductive CmdOutcome where
  | spawnFail
  | ran (success : Bool) (stdout stderr : String)
deriving DecidableEq, Repr

/-- The external world the build script runs against. -/
structure World where
  cwd : FsPath
  outDir : FsPath
  gitUrlOverride : Option String
  target : String
  host : String
  rustcLinker : Option String
  targetEnv : Option String
  numCpus : Nat
  pkgConfig : Option PkgLibrary
  fileExists : FsPath → Bool
  createDirFails : Bool
  run : CmdSpec → CmdOutcome

/-- `fn output()`: the OUT_DIR path. -/
def output (w : World) : FsPath := w.outDir

/-- `fn source()`: `output().join("opus-<version>")`. -/
def sourceDir (w : World) : FsPath := pathPush (output w) ("opus-" ++ version)

/-- `fn search()`: current dir, push OUT_DIR, push "dist". -/
def search (w : World) : FsPath := pathPush (pathPush w.cwd (output w)) "dist"

/-- `Paths::default()`. -/
def Paths.mkDefault (w : World) : Paths :=
  { include_paths := [pathPush (pathPush (search w) "include") "opus"]
  , link_paths := [pathPush (search w) "lib"] }

/-- `From<pkg_config::Library> for Paths`. -/
def Paths.fromPkg (lib : PkgLibrary) : Paths :=
  ⟨lib.include_paths, lib.link_paths⟩

/-- Observable events of one pipeline run. -/
inductive Event where
  | probeSystem (ok : Bool)
  | probePrebuilt (path : FsPath) (found : Bool)
  | checkMarker (path : FsPath) (found : Bool)
  | createDir (p : FsPath)
  | spawn (c : CmdSpec) (r : CmdOutcome)
  | cargoDirective (s : String)
deriving DecidableEq, Repr

/-- Compilation platform selecting the `#[cfg]` branches of `fetch`. -/
inductive OS where
  | unix
  | windows
deriving DecidableEq, Repr

/-- The build-configuration marker file checked by `fetch`. -/
def markerFile : OS → String
  | .unix => "autogen.sh"
  | .windows => "CMakeLists.txt"

/-- Errors `fetch` can return: the "fetch failed" error for a non-zero clone
exit, or a spawn error propagated by the `?` on `Command::status`. -/
inductive FetchErr where
  | fetchFailed
  | spawnErr
deriving DecidableEq, Repr

/-- Remote URL: the `OPUS_GIT_URL` override if set, else the canonical repo. -/
def gitUrl (w : World) : String :=
  w.gitUrlOverride.getD "https://github.com/xiph/opus"

/-- The git clone command spawned by `fetch`. -/
def cloneCmd (w : World) : CmdSpec :=
  { prog := "git"
  , cwd := output w
  , args := ["clone", "--depth", "1", "-b", "v" ++ version, gitUrl w,
             "opus-" ++ version] }

/-- The marker path `output()/opus-<version>/<marker>` checked by `fetch`. -/
def markerPath (os : OS) (w : World) : FsPath :=
  pathPush (pathPush (output w) ("opus-" ++ version)) (markerFile os)

/-- `fn fetch()`. -/
def fetch (os : OS) (w : World) : List Event × Except FetchErr Unit :=
  let marker := markerPath os w
  if w.fileExists marker then
    ([Event.checkMarker marker true], Except.ok ())
  else
    match w.run (cloneCmd w) with
    | CmdOutcome.spawnFail =>
      ([Event.checkMarker marker false, Event.spawn (cloneCmd w) CmdOutcome.spawnFail],
       Except.error FetchErr.spawnErr)
    | CmdOutcome.ran s out err =>
      ([Event.checkMarker marker false, Event.spawn (cloneCmd w) (CmdOutcome.ran s out err)],
       if s then Except.ok () else Except.error FetchErr.fetchFailed)

/-- The probe command spawned by `check_prog` (no explicit working dir in the
source, so it runs in the process working dir). -/
def checkProgCmd (w : World) (name : String) (args : List String) : CmdSpec :=
  { prog := name, args := args, cwd := w.cwd }

/-- `fn check_prog`: available iff the probe spawns and exits successfully;
a spawn error counts as unavailable. -/
def check_prog (w : World) (name : String) (args : List String) : Bool :=
  match w.run (checkProgCmd w name args) with
  | CmdOutcome.ran s _ _ => s
  | CmdOutcome.spawnFail => false

/-- Errors the Unix `build` returns (as `io::Result` errors). -/
inductive BuildErr where
  | toolNotFound (msg : String)
  | configureFailed (msg : String)
  | compileFailed (msg : String)
  | installFailed (msg : String)
  | spawnIo
deriving DecidableEq, Repr

/-- Result of `build`: returned value, returned error, or process abort via
`panic!` / `expect` / `unwrap`. -/
inductive BuildRes where
  | ok (p : Paths)
  | err (e : BuildErr)
  | panic (msg : String)
deriving DecidableEq, Repr

/-- Error message for a missing `make` (build.rs line 173). -/
def makeMissingMsg : String :=
  "The `make` not found, install or add to PATH and try again!"

/-- Error message for a missing `autoreconf` (build.rs line 181). -/
def autoreconfMissingMsg : String :=
  "The `autoreconf` not found, install or add to PATH and try again!"

/-- Error message for a missing `libtool` (build.rs line 189, with the
source's typo of a missing opening backquote). -/
def libtoolMissingMsg : String :=
  "The libtool` not found, install or add to PATH and try again!"

/-- Panic message of `env::var("RUSTC_LINKER").expect(...)`. -/
def missingLinkerPanicMsg : String := "Missing RUSTC_LINKER for cross compile"

/-- Panic marker for `linker.rfind('-').unwrap()` on a hyphen-free linker. -/
def noHyphenPanicMsg : String := "rfind unwrap on None"

/-- The pure host-triple derivation of build.rs lines 203-208: if the linker
string contains the target triple use the target, otherwise split the trimmed
linker at the index of its last hyphen (computed on the untrimmed string, as
in the source) and use the left part. `none` models the `unwrap` panic when
no hyphen exists. -/
def resolveHostArg (target linker : String) : Option String :=
  if rustContains linker target then some target
  else
    match rustRfindDash linker.data with
    | none => none
    | some i => some (String.mk ((trimChars linker.data).take i))

/-- The cross-compilation part of the configure argument list (empty when
target = host); `Except.error` carries the panic message of the two aborts. -/
def crossHostArgs (w : World) : Except String (List String) :=
  if w.target = w.host then Except.ok []
  else
    match w.rustcLinker with
    | none => Except.error missingLinkerPanicMsg
    | some linker =>
      match resolveHostArg w.target linker with
      | none => Except.error noHyphenPanicMsg
      | some h => Except.ok ["--host=" ++ h]

/-- The fixed tail of the configure argument list (build.rs lines 212-218). -/
def staticConfigureArgs : List String :=
  ["--enable-static", "--disable-shared", "--disable-doc",
   "--disable-extra-programs", "--with-pic"]

/-- The full argument list passed to `./configure` by the Unix build driver. -/
def configureArgs (w : World) : Except String (List String) :=
  (crossHostArgs w).map (fun cross =>
    ["--prefix=" ++ search w] ++ cross ++ staticConfigureArgs)

/-- The `./autogen.sh` command (run in the source directory). -/
def autogenCmd (w : World) : CmdSpec :=
  { prog := "./autogen.sh", args := [], cwd := sourceDir w }

/-- The `./configure` command. -/
def configureCmd (w : World) (args : List String) : CmdSpec :=
  { prog := "./configure", args := args, cwd := sourceDir w }

/-- The `make -j <ncpus>` command. -/
def makeCmd (w : World) : CmdSpec :=
  { prog := "make", args := ["-j", toString w.numCpus], cwd := sourceDir w }

/-- The `make install` command. -/
def makeInstallCmd (w : World) : CmdSpec :=
  { prog := "make", args := ["install"], cwd := sourceDir w }

/-- The Unix `fn build()` (build.rs lines 167-263).  Tool probes first; then
the configure argument list is constructed (possibly panicking on the
cross-compile lookups); then `./autogen.sh` is run with its exit status
ignored (only a spawn failure panics); then `./configure`, `make -j`,
`make install`, each fail-fast on non-success exit. -/
def build (w : World) : List Event × BuildRes :=
  let mkProbe := checkProgCmd w "make" ["--version"]
  let evMk := Event.spawn mkProbe (w.run mkProbe)
  if !check_prog w "make" ["--version"] then
    ([evMk], BuildRes.err (BuildErr.toolNotFound makeMissingMsg))
  else
    let arProbe := checkProgCmd w "autoreconf" ["--version"]
    let evAr := Event.spawn arProbe (w.run arProbe)
    if !check_prog w "autoreconf" ["--version"] then
      ([evMk, evAr], BuildRes.err (BuildErr.toolNotFound autoreconfMissingMsg))
    else
      let ltProbe := checkProgCmd w "libtool" ["--version"]
      let evLt := Event.spawn ltProbe (w.run ltProbe)
      if !check_prog w "libtool" ["--version"] then
        ([evMk, evAr, evLt], BuildRes.err (BuildErr.toolNotFound libtoolMissingMsg))
      else
        match configureArgs w with
        | Except.error msg => ([evMk, evAr, evLt], BuildRes.panic msg)
        | Except.ok cargs =>
          match w.run (autogenCmd w) with
          | CmdOutcome.spawnFail =>
            ([evMk, evAr, evLt, Event.spawn (autogenCmd w) CmdOutcome.spawnFail],
             BuildRes.panic "autogen.sh spawn failed")
          | CmdOutcome.ran as aout aerr =>
            let evAutogen := Event.spawn (autogenCmd w) (CmdOutcome.ran as aout aerr)
            match w.run (configureCmd w cargs) with
            | CmdOutcome.spawnFail =>
              ([evMk, evAr, evLt, evAutogen,
                Event.spawn (configureCmd w cargs) CmdOutcome.spawnFail],
               BuildRes.panic "configure spawn failed")
            | CmdOutcome.ran cs cout cerr =>
              let evConf := Event.spawn (configureCmd w cargs) (CmdOutcome.ran cs cout cerr)
              if !cs then
                ([evMk, evAr, evLt, evAutogen, evConf],
                 BuildRes.err (BuildErr.configureFailed ("configure failed " ++ cerr)))
              else
                match w.run (makeCmd w) with
                | CmdOutcome.spawnFail =>
                  ([evMk, evAr, evLt, evAutogen, evConf,
                    Event.spawn (makeCmd w) CmdOutcome.spawnFail],
                   BuildRes.err BuildErr.spawnIo)
                | CmdOutcome.ran ms mout merr =>
                  let evMake := Event.spawn (makeCmd w) (CmdOutcome.ran ms mout merr)
                  if !ms then
                    ([evMk, evAr, evLt, evAutogen, evConf, evMake],
                     BuildRes.err (BuildErr.compileFailed "make failed"))
                  else
                    match w.run (makeInstallCmd w) with
                    | CmdOutcome.spawnFail =>
                      ([evMk, evAr, evLt, evAutogen, evConf, evMake,
                        Event.spawn (makeInstallCmd w) CmdOutcome.spawnFail],
                       BuildRes.err BuildErr.spawnIo)
                    | CmdOutcome.ran is iout ierr =>
                      let evInst := Event.spawn (makeInstallCmd w) (CmdOutcome.ran is iout ierr)
                      if !is then
                        ([evMk, evAr, evLt, evAutogen, evConf, evMake, evInst],
                         BuildRes.err (BuildErr.installFailed "make install failed"))
                      else
                        ([evMk, evAr, evLt, evAutogen, evConf, evMake, evInst],
                         BuildRes.ok (Paths.mkDefault w))

/-- The static archive filename expected by `probe_prebuilt`. -/
def libFileName (w : World) : String :=
  if w.targetEnv = some "gnu" then "libopus.a" else "opus.lib"

/-- The path probed by `probe_prebuilt`: `search()/lib/<libFileName>`. -/
def prebuiltPath (w : World) : FsPath :=
  pathPush (pathPush (search w) "lib") (libFileName w)

/-- The not-found signal of `probe_prebuilt` (an `io::ErrorKind::NotFound`). -/
inductive ProbeErr where
  | notFound
deriving DecidableEq, Repr

/-- `fn probe_prebuilt()`. -/
def probe_prebuilt (w : World) : List Event × Except ProbeErr Paths :=
  let p := prebuiltPath w
  if w.fileExists p then
    ([Event.probePrebuilt p true], Except.ok (Paths.mkDefault w))
  else
    ([Event.probePrebuilt p false], Except.error ProbeErr.notFound)

/-- The `cargo:rustc-link-search` directive printed by `main`. -/
def linkSearchDirective (w : World) : String :=
  "cargo:rustc-link-search=native=" ++ pathPush (search w) "lib"

/-- The `cargo:rustc-link-lib` directive printed by `main`. -/
def linkLibDirective : String := "cargo:rustc-link-lib=static=opus"

/-- Result of the acquisition phase of `main`: a `Paths` value, or a process
abort (`expect` / `unwrap` panic). -/
inductive MainRes where
  | ok (p : Paths)
  | panic (msg : String)
deriving DecidableEq, Repr

/-- Acquisition phase of `fn main()` (build.rs lines 278-296) on a Unix host:
probe pkg-config; on failure probe the prebuilt artifact; on failure create
the output dir, fetch (unwrapping the result) and build from source; when the
pkg-config probe failed and a `Paths` value was obtained, print the two cargo
directives. -/
def mainAcquire (w : World) : List Event × MainRes :=
  match w.pkgConfig with
  | some lib => ([Event.probeSystem true], MainRes.ok (Paths.fromPkg lib))
  | none =>
    match probe_prebuilt w with
    | (t1, Except.ok p) =>
      ([Event.probeSystem false] ++ t1 ++
       [Event.cargoDirective (linkSearchDirective w), Event.cargoDirective linkLibDirective],
       MainRes.ok p)
    | (t1, Except.error _) =>
      if w.createDirFails then
        ([Event.probeSystem false] ++ t1, MainRes.panic "Failed to create build directory")
      else
        let pre := [Event.probeSystem false] ++ t1 ++ [Event.createDir (output w)]
        match fetch OS.unix w with
        | (t2, Except.error _) => (pre ++ t2, MainRes.panic "fetch unwrap")
        | (t2, Except.ok ()) =>
          match build w with
          | (t3, BuildRes.panic m) => (pre ++ t2 ++ t3, MainRes.panic m)
          | (t3, BuildRes.err _) =>
            (pre ++ t2 ++ t3, MainRes.panic "Unable to build libopus from source")
          | (t3, BuildRes.ok p) =>
            (pre ++ t2 ++ t3 ++
             [Event.cargoDirective (linkSearchDirective w), Event.cargoDirective linkLibDirective],
             MainRes.ok p)

/-- Event classifiers used by the trace statements. -/
def Event.isSpawn : Event → Bool
  | Event.spawn _ _ => true
  | _ => false

/-- Spawned `git clone` detector (the only network operation). -/
def Event.isClone : Event → Bool
  | Event.spawn c _ => c.prog == "git" && c.args.take 1 == ["clone"]
  | _ => false

/-- A bootstrap/configure/compile/install command of the build driver (the
tool probes run `make --version` only). -/
def Event.isBuildStep : Event → Bool
  | Event.spawn c _ =>
    c.prog == "./autogen.sh" || c.prog == "./configure" ||
    (c.prog == "make" && c.args != ["--version"])
  | _ => false

/-- A `make` compile or install run (not the availability probe). -/
def Event.isMakeRun : Event → Bool
  | Event.spawn c _ => c.prog == "make" && c.args != ["--version"]
  | _ => false

/-- A `make install` run. -/
def Event.isInstallRun : Event → Bool
  | Event.spawn c _ => c.prog == "make" && c.args == ["install"]
  | _ => false

/-- A cargo directive emission. -/
def Event.isCargoDirective : Event → Bool
  | Event.cargoDirective _ => true
  | _ => false

/-- Fetch activity: the marker check or a clone spawn. -/
def Event.isFetchActivity : Event → Bool
  | Event.checkMarker _ _ => true
  | e => e.isClone

/-- The synthesized binding-generation request of `main` (lines 298-323). -/
structure BindgenRequest where
  header : FsPath
  wrapperContent : String
  clangArgs : List String
  allowFunPats : List String
  allowTypePats : List String
  allowVarPats : List String
deriving DecidableEq, Repr

/-- Request construction: wrapper header at `OUT_DIR/wrapper.h` containing an
include of the umbrella header, one `-I` flag per include path in order, and
the literal allowlist patterns of the source. -/
def mkBindgenRequest (w : World) (paths : Paths) : BindgenRequest :=
  { header := pathPush w.outDir "wrapper.h"
  , wrapperContent := "#include <opus.h>\n"
  , clangArgs := paths.include_paths.map (fun x => "-I" ++ x)
  , allowFunPats := ["^opus_.*"]
  , allowTypePats := ["^opus_.*", "^OPUS_.*", "^Opus.*"]
  , allowVarPats := ["^OPUS_.*"] }

/-- Semantics of the anchored-prefix regexes `^<literal>.*` that build.rs
passes to the allowlists: such a pattern accepts exactly the names with
`<literal>` as a prefix; any other pattern shape is out of scope here. -/
def regexAccepts (pat name : String) : Bool :=
  if listPref ['^'] pat.data && ['.', '*'].isSuffixOf pat.data then
    listPref ((pat.data.drop 1).dropLast.dropLast) name.data
  else false

/-- A name is admitted as a function iff some function allowlist pattern
accepts it. -/
def requestAdmitsFun (r : BindgenRequest) (name : String) : Bool :=
  r.allowFunPats.any (fun p => regexAccepts p name)

/-- A name is admitted as a type iff some type allowlist pattern accepts it. -/
def requestAdmitsType (r : BindgenRequest) (name : String) : Bool :=
  r.allowTypePats.any (fun p => regexAccepts p name)

/-- A name is admitted as a constant iff some var allowlist pattern accepts it. -/
def requestAdmitsVar (r : BindgenRequest) (name : String) : Bool :=
  r.allowVarPats.any (fun p => regexAccepts p name)

/-- A world where pkg-config reports the library. -/
def wPkg : World :=
  { cwd := "/work", outDir := "/out", gitUrlOverride := none
  , target := "x86_64-unknown-linux-gnu", host := "x86_64-unknown-linux-gnu"
  , rustcLinker := none, targetEnv := some "gnu", numCpus := 4
  , pkgConfig := some ⟨["/usr/include/opus"], ["/usr/lib"]⟩
  , fileExists := fun _ => false
  , createDirFails := false
  , run := fun _ => CmdOutcome.ran true "" "" }

/-- A world where pkg-config fails but the prebuilt artifact is installed. -/
def wPre : World :=
  { cwd := "/work", outDir := "/out", gitUrlOverride := none
  , target := "x86_64-unknown-linux-gnu", host := "x86_64-unknown-linux-gnu"
  , rustcLinker := none, targetEnv := some "gnu", numCpus := 4
  , pkgConfig := none
  , fileExists := fun p => p == "/out/dist/lib/libopus.a"
  , createDirFails := false
  , run := fun _ => CmdOutcome.ran true "" "" }

/-- A world where the source tree already contains the marker file. -/
def wMark : World :=
  { cwd := "/work", outDir := "/out", gitUrlOverride := none
  , target := "x86_64-unknown-linux-gnu", host := "x86_64-unknown-linux-gnu"
  , rustcLinker := none, targetEnv := some "gnu", numCpus := 4
  , pkgConfig := none
  , fileExists := fun p => p == "/out/opus-1.3.1/autogen.sh"
  , createDirFails := false
  , run := fun _ => CmdOutcome.ran true "" "" }

/-- A world where nothing is installed and the git clone exits non-zero. -/
def wCloneFail : World :=
  { cwd := "/work", outDir := "/out", gitUrlOverride := none
  , target := "x86_64-unknown-linux-gnu", host := "x86_64-unknown-linux-gnu"
  , rustcLinker := none, targetEnv := some "gnu", numCpus := 4
  , pkgConfig := none
  , fileExists := fun _ => false
  , createDirFails := false
  , run := fun c => if c.prog == "git" then CmdOutcome.ran false "" "fatal: clone error"
                    else CmdOutcome.ran true "" "" }

/-- A cross-compiling world whose linker name contains the target triple. -/
def wCross : World :=
  { cwd := "/work", outDir := "/out", gitUrlOverride := none
  , target := "arm-linux-gnueabihf", host := "x86_64-unknown-linux-gnu"
  , rustcLinker := some "arm-linux-gnueabihf-gcc", targetEnv := some "gnu", numCpus := 4
  , pkgConfig := none
  , fileExists := fun _ => false
  , createDirFails := false
  , run := fun _ => CmdOutcome.ran true "" "" }

/-- A cross-compiling world whose linker name has no hyphen and does not
contain the target triple. -/
def wNoHyphen : World :=
  { cwd := "/work", outDir := "/out", gitUrlOverride := none
  , target := "aarch64-unknown-linux-gnu", host := "x86_64-unknown-linux-gnu"
  , rustcLinker := some "clang", targetEnv := some "gnu", numCpus := 4
  , pkgConfig := none
  , fileExists := fun _ => false
  , createDirFails := false
  , run := fun _ => CmdOutcome.ran true "" "" }

/-- A world where `./autogen.sh` exits non-zero but every other command
succeeds. -/
def wAutogenFail : World :=
  { cwd := "/work", outDir := "/out", gitUrlOverride := none
  , target := "x86_64-unknown-linux-gnu", host := "x86_64-unknown-linux-gnu"
  , rustcLinker := none, targetEnv := some "gnu", numCpus := 2
  , pkgConfig := none
  , fileExists := fun _ => false
  , createDirFails := false
  , run := fun c => if c.prog == "./autogen.sh" then CmdOutcome.ran false "" "autogen boom"
                    else CmdOutcome.ran true "" "" }

/-- A world where `./configure` exits non-zero. -/
def wConfFail : World :=
  { cwd := "/work", outDir := "/out", gitUrlOverride := none
  , target := "x86_64-unknown-linux-gnu", host := "x86_64-unknown-linux-gnu"
  , rustcLinker := none, targetEnv := some "gnu", numCpus := 2
  , pkgConfig := none
  , fileExists := fun _ => false
  , createDirFails := false
  , run := fun c => if c.prog == "./configure" then CmdOutcome.ran false "" "boom"
                    else CmdOutcome.ran true "" "" }

/-- A world where the `make` availability probe fails. -/
def wNoMake : World :=
  { cwd := "/work", outDir := "/out", gitUrlOverride := none
  , target := "x86_64-unknown-linux-gnu", host := "x86_64-unknown-linux-gnu"
  , rustcLinker := none, targetEnv := some "gnu", numCpus := 2
  , pkgConfig := none
  , fileExists := fun _ => false
  , createDirFails := false
  , run := fun c => if c.prog == "make" && c.args == ["--version"] then CmdOutcome.spawnFail
                    else CmdOutcome.ran true "" "" }

/-- A spawned `./autogen.sh` that exited non-success. -/
def Event.isFailedAutogen : Event → Bool
  | Event.spawn c (CmdOutcome.ran s _ _) => c.prog == "./autogen.sh" && !s
  | _ => false

/-- A spawned `./configure` run. -/
def Event.isConfigureRun : Event → Bool
  | Event.spawn c _ => c.prog == "./configure"
  | _ => false

theorem listPref_append_self (n r : List Char) : listPref n (n ++ r) = true := by
  induction n with
  | nil => rfl
  | cons a t ih => simp [listPref, ih]

theorem containsSub_append_self (n r : List Char) : containsSub n (n ++ r) = true := by
  cases n with
  | nil => cases r <;> rfl
  | cons a t =>
    have h := listPref_append_self (a :: t) r
    simp only [List.cons_append] at h
    simp [containsSub, h]

theorem rustContains_left_append (s sfx : String) : rustContains (s ++ sfx) s = true := by
  unfold rustContains
  rw [show (s ++ sfx).data = s.data ++ sfx.data by simp]
  exact containsSub_append_self _ _

theorem rustRfindDash_eq_none_iff (l : List Char) : rustRfindDash l = none ↔ '-' ∉ l := by
  induction l with
  | nil => simp [rustRfindDash]
  | cons a t ih =>
    cases h : rustRfindDash t with
    | some i =>
      have ht : '-' ∈ t := by
        by_contra hc
        have := ih.mpr hc
        simp [this] at h
      simp [rustRfindDash, h, List.mem_cons, ht]
    | none =>
      have ht : '-' ∉ t := ih.mp h
      by_cases hac : a = '-'
      · subst hac
        simp [rustRfindDash, h, List.mem_cons]
      · simp [rustRfindDash, h, List.mem_cons, ht, hac, Ne.symm hac]

theorem fetch_checkMarker_mem (os : OS) (w : World) :
    Event.checkMarker (markerPath os w) (w.fileExists (markerPath os w)) ∈ (fetch os w).1 := by
  unfold fetch
  cases h : w.fileExists (markerPath os w) with
  | true => simp [h]
  | false => cases hr : w.run (cloneCmd w) <;> simp [h, hr]

theorem fetch_events_no_cargo (os : OS) (w : World) :
    ∀ e ∈ (fetch os w).1, e.isCargoDirective = false := by
  unfold fetch
  cases h : w.fileExists (markerPath os w) with
  | true => simp [h, Event.isCargoDirective]
  | false => cases hr : w.run (cloneCmd w) <;> simp [h, hr, Event.isCargoDirective]

theorem build_events_spawn (w : World) : ∀ e ∈ (build w).1, e.isSpawn = true := by
  unfold build
  repeat' split
  all_goals simp [Event.isSpawn]

theorem Event.isCargo_eq_false_of_isSpawn (e : Event) (h : e.isSpawn = true) :
    e.isCargoDirective = false := by
  cases e <;> simp [Event.isSpawn, Event.isCargoDirective] at *
/-- C3: when the pinned source directory already contains the designated
marker file (`autogen.sh` on Unix, `CMakeLists.txt` on Windows), `fetch`
returns success immediately without spawning any process — in particular no
git clone — so two consecutive calls perform no network operation and both
return success. -/
theorem C3_fetch_idempotent (os : OS) (w : World)
    (h : w.fileExists (markerPath os w) = true) :
    fetch os w = ([Event.checkMarker (markerPath os w) true], Except.ok ()) ∧
    (∀ e ∈ (fetch os w).1 ++ (fetch os w).1, e.isClone = false ∧ e.isSpawn = false) := by
  have hf : fetch os w = ([Event.checkMarker (markerPath os w) true], Except.ok ()) := by
    unfold fetch
    simp [h]
  refine ⟨hf, ?_⟩
  intro e he
  rw [hf] at he
  simp at he
  subst he
  exact ⟨rfl, rfl⟩

/-- Witness for C3 at a concrete world whose marker file exists. -/
theorem C3_fetch_idempotent_witness :
    wMark.fileExists (markerPath OS.unix wMark) = true ∧
    fetch OS.unix wMark = ([Event.checkMarker (markerPath OS.unix wMark) true], Except.ok ()) :=
  ⟨by decide, (C3_fetch_idempotent OS.unix wMark (by decide)).1⟩

/-- C4: `fetch` returns the FetchFailed error exactly when the marker file is
absent and the spawned clone process exits non-zero; the clone command is a
shallow (`--depth 1`) clone pinned to tag `v<version>`, with the URL taken
from the `OPUS_GIT_URL` override when set and the canonical location
otherwise; and in `main` this failure is fatal (the `unwrap` aborts the
pipeline) with the clone spawned exactly once, never retried. -/
theorem C4_fetch_failed_iff :
    (∀ (os : OS) (w : World),
      (fetch os w).2 = Except.error FetchErr.fetchFailed ↔
        (w.fileExists (markerPath os w) = false ∧
         ∃ out err, w.run (cloneCmd w) = CmdOutcome.ran false out err)) ∧
    (∀ w : World, (cloneCmd w).prog = "git" ∧
      (cloneCmd w).args =
        ["clone", "--depth", "1", "-b", "v" ++ version, gitUrl w, "opus-" ++ version]) ∧
    (∀ (w : World) (url : String), w.gitUrlOverride = some url → gitUrl w = url) ∧
    (∀ w : World, w.gitUrlOverride = none → gitUrl w = "https://github.com/xiph/opus") ∧
    (∀ w : World, w.pkgConfig = none → w.fileExists (prebuiltPath w) = false →
      w.createDirFails = false →
      (fetch OS.unix w).2 = Except.error FetchErr.fetchFailed →
      (mainAcquire w).2 = MainRes.panic "fetch unwrap" ∧
      ((mainAcquire w).1.filter Event.isClone).length = 1) := by
  refine ⟨?_, ?_, ?_, ?_, ?_⟩
  · intro os w
    unfold fetch
    cases h : w.fileExists (markerPath os w) with
    | true => simp [h]
    | false =>
      cases hr : w.run (cloneCmd w) with
      | spawnFail => simp [h, hr]
      | ran s out err => cases s <;> simp [h, hr]
  · intro w; exact ⟨rfl, rfl⟩
  · intro w url h; simp [gitUrl, h]
  · intro w h; simp [gitUrl, h]
  · intro w hpkg hpre hdir hfail
    have hmiss : w.fileExists (markerPath OS.unix w) = false := by
      by_contra hc
      have hc' : w.fileExists (markerPath OS.unix w) = true := by simpa using hc
      unfold fetch at hfail
      simp [hc'] at hfail
    have hfe : fetch OS.unix w =
        ([Event.checkMarker (markerPath OS.unix w) false,
          Event.spawn (cloneCmd w) (w.run (cloneCmd w))], Except.error FetchErr.fetchFailed) := by
      unfold fetch at hfail ⊢
      cases hr : w.run (cloneCmd w) with
      | spawnFail => simp [hmiss, hr] at hfail
      | ran s out err =>
        cases s with
        | true => simp [hmiss, hr] at hfail
        | false => simp [hmiss, hr]
    have hmain : mainAcquire w =
        ([Event.probeSystem false, Event.probePrebuilt (prebuiltPath w) false,
          Event.createDir (output w),
          Event.checkMarker (markerPath OS.unix w) false,
          Event.spawn (cloneCmd w) (w.run (cloneCmd w))], MainRes.panic "fetch unwrap") := by
      unfold mainAcquire probe_prebuilt
      simp [hpkg, hpre, hdir, hfe]
    rw [hmain]
    exact ⟨rfl, rfl⟩

/-- Witness for C4 at a concrete world where the clone exits non-zero. -/
theorem C4_fetch_failed_iff_witness :
    (mainAcquire wCloneFail).2 = MainRes.panic "fetch unwrap" ∧
    ((mainAcquire wCloneFail).1.filter Event.isClone).length = 1 :=
  C4_fetch_failed_iff.2.2.2.2 wCloneFail rfl (by decide) rfl rfl
/-- C5: cross-compile host-triple derivation.  When target differs from host
and a linker is configured: if the linker string contains the target triple,
the `--host` argument passed to `./configure` is the target triple; otherwise
it is the trimmed linker cut at the index of its last hyphen (the substring
up to but not including the last hyphen-delimited segment).  In particular a
linker named exactly `<triple>-gcc` (with `<triple>` the target) resolves to
`<triple>`, and `arm-linux-gnueabihf-gcc` resolves to `arm-linux-gnueabihf`
when the target triple is not contained in it. -/
theorem C5_host_triple_derivation :
    (∀ (w : World) (linker : String), w.target ≠ w.host → w.rustcLinker = some linker →
      rustContains linker w.target = true →
      configureArgs w = Except.ok
        (["--prefix=" ++ search w] ++ ["--host=" ++ w.target] ++ staticConfigureArgs)) ∧
    (∀ (w : World) (linker : String) (i : Nat), w.target ≠ w.host →
      w.rustcLinker = some linker →
      rustContains linker w.target = false → rustRfindDash linker.data = some i →
      configureArgs w = Except.ok
        (["--prefix=" ++ search w] ++
         ["--host=" ++ String.mk ((trimChars linker.data).take i)] ++ staticConfigureArgs)) ∧
    (∀ target linker : String, rustContains linker target = true →
      resolveHostArg target linker = some target) ∧
    (∀ target : String, resolveHostArg target (target ++ "-gcc") = some target) ∧
    resolveHostArg "aarch64-unknown-linux-gnu" "arm-linux-gnueabihf-gcc" =
      some "arm-linux-gnueabihf" := by
  refine ⟨?_, ?_, ?_, ?_, by decide⟩
  · intro w linker hne hl hc
    unfold configureArgs crossHostArgs resolveHostArg
    simp [hne, hl, hc, Except.map]
  · intro w linker i hne hl hc hi
    unfold configureArgs crossHostArgs resolveHostArg
    simp [hne, hl, hc, hi, Except.map]
  · intro target linker hc
    unfold resolveHostArg
    simp [hc]
  · intro target
    unfold resolveHostArg
    simp [rustContains_left_append]

/-- Witness for C5 at a concrete cross-compiling world. -/
theorem C5_host_triple_derivation_witness :
    configureArgs wCross = Except.ok
      (["--prefix=" ++ search wCross] ++ ["--host=" ++ wCross.target] ++ staticConfigureArgs) :=
  C5_host_triple_derivation.1 wCross "arm-linux-gnueabihf-gcc" (by decide) rfl (by decide)

/-- C10: during cross-compilation, a linker that neither contains the target
triple nor has any hyphen makes triple derivation abort with a panic (the
`unwrap` of the `rfind` result), and an unset `RUSTC_LINKER` aborts with the
`expect` panic; both are process aborts, not structured error returns (a
`BuildRes.panic` is never a `BuildRes.err`). -/
theorem C10_cross_panics :
    (∀ target linker : String, rustContains linker target = false →
      rustRfindDash linker.data = none → resolveHostArg target linker = none) ∧
    (∀ l : List Char, rustRfindDash l = none ↔ '-' ∉ l) ∧
    (∀ (w : World) (linker : String),
      check_prog w "make" ["--version"] = true →
      check_prog w "autoreconf" ["--version"] = true →
      check_prog w "libtool" ["--version"] = true →
      w.target ≠ w.host → w.rustcLinker = some linker →
      rustContains linker w.target = false → rustRfindDash linker.data = none →
      (build w).2 = BuildRes.panic noHyphenPanicMsg) ∧
    (∀ w : World,
      check_prog w "make" ["--version"] = true →
      check_prog w "autoreconf" ["--version"] = true →
      check_prog w "libtool" ["--version"] = true →
      w.target ≠ w.host → w.rustcLinker = none →
      (build w).2 = BuildRes.panic missingLinkerPanicMsg) ∧
    (∀ (m : String) (e : BuildErr), BuildRes.panic m ≠ BuildRes.err e) := by
  refine ⟨?_, rustRfindDash_eq_none_iff, ?_, ?_, ?_⟩
  · intro target linker hc hr
    unfold resolveHostArg
    simp [hc, hr]
  · intro w linker h1 h2 h3 hne hl hc hr
    have hca : configureArgs w = Except.error noHyphenPanicMsg := by
      unfold configureArgs crossHostArgs resolveHostArg
      simp [hne, hl, hc, hr, Except.map]
    unfold build
    simp [h1, h2, h3, hca]
  · intro w h1 h2 h3 hne hl
    have hca : configureArgs w = Except.error missingLinkerPanicMsg := by
      unfold configureArgs crossHostArgs
      simp [hne, hl, Except.map]
    unfold build
    simp [h1, h2, h3, hca]
  · intro m e h
    exact BuildRes.noConfusion h

/-- Witness for C10 at a concrete world with a hyphen-free linker. -/
theorem C10_cross_panics_witness :
    (build wNoHyphen).2 = BuildRes.panic noHyphenPanicMsg :=
  C10_cross_panics.2.2.1 wNoHyphen "clang" rfl rfl rfl (by decide) rfl (by decide) rfl
/-- C6: in the Unix build driver, each required tool in make, autoreconf,
libtool is probed in order; a failing probe returns a tool-not-found error
whose message names exactly that tool (and no other required tool), and no
bootstrap, configure, compile or install command is spawned. -/
theorem C6_tool_checks :
    (∀ w : World, check_prog w "make" ["--version"] = false →
      build w = ([Event.spawn (checkProgCmd w "make" ["--version"])
                    (w.run (checkProgCmd w "make" ["--version"]))],
                 BuildRes.err (BuildErr.toolNotFound makeMissingMsg)) ∧
      ∀ e ∈ (build w).1, e.isBuildStep = false) ∧
    (∀ w : World, check_prog w "make" ["--version"] = true →
      check_prog w "autoreconf" ["--version"] = false →
      (build w).2 = BuildRes.err (BuildErr.toolNotFound autoreconfMissingMsg) ∧
      ∀ e ∈ (build w).1, e.isBuildStep = false) ∧
    (∀ w : World, check_prog w "make" ["--version"] = true →
      check_prog w "autoreconf" ["--version"] = true →
      check_prog w "libtool" ["--version"] = false →
      (build w).2 = BuildRes.err (BuildErr.toolNotFound libtoolMissingMsg) ∧
      ∀ e ∈ (build w).1, e.isBuildStep = false) ∧
    (rustContains makeMissingMsg "make" = true ∧
     rustContains makeMissingMsg "autoreconf" = false ∧
     rustContains makeMissingMsg "libtool" = false) ∧
    (rustContains autoreconfMissingMsg "autoreconf" = true ∧
     rustContains autoreconfMissingMsg "make" = false ∧
     rustContains autoreconfMissingMsg "libtool" = false) ∧
    (rustContains libtoolMissingMsg "libtool" = true ∧
     rustContains libtoolMissingMsg "make" = false ∧
     rustContains libtoolMissingMsg "autoreconf" = false) := by
  refine ⟨?_, ?_, ?_, by decide, by decide, by decide⟩
  · intro w h
    have hb : build w = ([Event.spawn (checkProgCmd w "make" ["--version"])
                            (w.run (checkProgCmd w "make" ["--version"]))],
                         BuildRes.err (BuildErr.toolNotFound makeMissingMsg)) := by
      unfold build
      simp [h]
    refine ⟨hb, ?_⟩
    intro e he
    rw [hb] at he
    simp at he
    subst he
    rfl
  · intro w h1 h2
    have hb : build w = ([Event.spawn (checkProgCmd w "make" ["--version"])
                            (w.run (checkProgCmd w "make" ["--version"])),
                          Event.spawn (checkProgCmd w "autoreconf" ["--version"])
                            (w.run (checkProgCmd w "autoreconf" ["--version"]))],
                         BuildRes.err (BuildErr.toolNotFound autoreconfMissingMsg)) := by
      unfold build
      simp [h1, h2]
    refine ⟨by rw [hb], ?_⟩
    intro e he
    rw [hb] at he
    simp at he
    rcases he with rfl | rfl <;> rfl
  · intro w h1 h2 h3
    have hb : build w = ([Event.spawn (checkProgCmd w "make" ["--version"])
                            (w.run (checkProgCmd w "make" ["--version"])),
                          Event.spawn (checkProgCmd w "autoreconf" ["--version"])
                            (w.run (checkProgCmd w "autoreconf" ["--version"])),
                          Event.spawn (checkProgCmd w "libtool" ["--version"])
                            (w.run (checkProgCmd w "libtool" ["--version"]))],
                         BuildRes.err (BuildErr.toolNotFound libtoolMissingMsg)) := by
      unfold build
      simp [h1, h2, h3]
    refine ⟨by rw [hb], ?_⟩
    intro e he
    rw [hb] at he
    simp at he
    rcases he with rfl | rfl | rfl <;> rfl

/-- Witness for C6 at a concrete world whose `make` probe fails to spawn. -/
theorem C6_tool_checks_witness :
    build wNoMake = ([Event.spawn (checkProgCmd wNoMake "make" ["--version"])
                        (wNoMake.run (checkProgCmd wNoMake "make" ["--version"]))],
                     BuildRes.err (BuildErr.toolNotFound makeMissingMsg)) :=
  (C6_tool_checks.1 wNoMake (by decide)).1

/-- C7 counterexample: in a world where `./autogen.sh` exits non-success and
every other command succeeds, the Unix build driver still succeeds and the
subsequent `./configure` step still runs — the bootstrap step's exit status
is ignored, contradicting fail-fast at the bootstrap step. -/
theorem C7_counterexample :
    (build wAutogenFail).2 = BuildRes.ok (Paths.mkDefault wAutogenFail) ∧
    (build wAutogenFail).1.any Event.isFailedAutogen = true ∧
    (build wAutogenFail).1.any Event.isConfigureRun = true := by
  refine ⟨by decide, by decide, by decide⟩

/-- C7 (amended): after the tool probes, at each of the configure, compile
(make) and install steps a non-success exit yields the step-specific fatal
error — `configure failed` with the captured stderr, `make failed`,
`make install failed` — and no later step is spawned; the bootstrap
(`./autogen.sh`) step's exit status is ignored, so the sequence continues
to success regardless of it. -/
theorem C7_fail_fast (w : World) (cargs : List String)
    (ab : Bool) (aout aerr : String)
    (h1 : check_prog w "make" ["--version"] = true)
    (h2 : check_prog w "autoreconf" ["--version"] = true)
    (h3 : check_prog w "libtool" ["--version"] = true)
    (hca : configureArgs w = Except.ok cargs)
    (hag : w.run (autogenCmd w) = CmdOutcome.ran ab aout aerr) :
    (∀ cout cerr, w.run (configureCmd w cargs) = CmdOutcome.ran false cout cerr →
      (build w).2 = BuildRes.err (BuildErr.configureFailed ("configure failed " ++ cerr)) ∧
      ∀ e ∈ (build w).1, e.isMakeRun = false) ∧
    (∀ cout cerr mout merr, w.run (configureCmd w cargs) = CmdOutcome.ran true cout cerr →
      w.run (makeCmd w) = CmdOutcome.ran false mout merr →
      (build w).2 = BuildRes.err (BuildErr.compileFailed "make failed") ∧
      ∀ e ∈ (build w).1, e.isInstallRun = false) ∧
    (∀ cout cerr mout merr iout ierr,
      w.run (configureCmd w cargs) = CmdOutcome.ran true cout cerr →
      w.run (makeCmd w) = CmdOutcome.ran true mout merr →
      w.run (makeInstallCmd w) = CmdOutcome.ran false iout ierr →
      (build w).2 = BuildRes.err (BuildErr.installFailed "make install failed")) ∧
    (∀ cout cerr mout merr iout ierr,
      w.run (configureCmd w cargs) = CmdOutcome.ran true cout cerr →
      w.run (makeCmd w) = CmdOutcome.ran true mout merr →
      w.run (makeInstallCmd w) = CmdOutcome.ran true iout ierr →
      (build w).2 = BuildRes.ok (Paths.mkDefault w)) := by
  refine ⟨?_, ?_, ?_, ?_⟩
  · intro cout cerr hconf
    have hb : build w = ([Event.spawn (checkProgCmd w "make" ["--version"])
                            (w.run (checkProgCmd w "make" ["--version"])),
                          Event.spawn (checkProgCmd w "autoreconf" ["--version"])
                            (w.run (checkProgCmd w "autoreconf" ["--version"])),
                          Event.spawn (checkProgCmd w "libtool" ["--version"])
                            (w.run (checkProgCmd w "libtool" ["--version"])),
                          Event.spawn (autogenCmd w) (CmdOutcome.ran ab aout aerr),
                          Event.spawn (configureCmd w cargs) (CmdOutcome.ran false cout cerr)],
                         BuildRes.err (BuildErr.configureFailed ("configure failed " ++ cerr))) := by
      unfold build
      simp [h1, h2, h3, hca, hag, hconf]
    refine ⟨by rw [hb], ?_⟩
    intro e he
    rw [hb] at he
    simp at he
    rcases he with rfl | rfl | rfl | rfl | rfl <;> rfl
  · intro cout cerr mout merr hconf hmk
    have hb : build w = ([Event.spawn (checkProgCmd w "make" ["--version"])
                            (w.run (checkProgCmd w "make" ["--version"])),
                          Event.spawn (checkProgCmd w "autoreconf" ["--version"])
                            (w.run (checkProgCmd w "autoreconf" ["--version"])),
                          Event.spawn (checkProgCmd w "libtool" ["--version"])
                            (w.run (checkProgCmd w "libtool" ["--version"])),
                          Event.spawn (autogenCmd w) (CmdOutcome.ran ab aout aerr),
                          Event.spawn (configureCmd w cargs) (CmdOutcome.ran true cout cerr),
                          Event.spawn (makeCmd w) (CmdOutcome.ran false mout merr)],
                         BuildRes.err (BuildErr.compileFailed "make failed")) := by
      unfold build
      simp [h1, h2, h3, hca, hag, hconf, hmk]
    refine ⟨by rw [hb], ?_⟩
    intro e he
    rw [hb] at he
    simp at he
    rcases he with rfl | rfl | rfl | rfl | rfl | rfl <;> rfl
  · intro cout cerr mout merr iout ierr hconf hmk hins
    unfold build
    simp [h1, h2, h3, hca, hag, hconf, hmk, hins]
  · intro cout cerr mout merr iout ierr hconf hmk hins
    unfold build
    simp [h1, h2, h3, hca, hag, hconf, hmk, hins]

/-- Witness for C7 at a concrete world whose `./configure` exits non-zero. -/
theorem C7_fail_fast_witness :
    (build wConfFail).2 =
      BuildRes.err (BuildErr.configureFailed ("configure failed " ++ "boom")) ∧
    ∀ e ∈ (build wConfFail).1, e.isMakeRun = false :=
  (C7_fail_fast wConfFail
      (["--prefix=" ++ search wConfFail] ++ [] ++ staticConfigureArgs)
      true "" "" rfl rfl rfl rfl rfl).1 "" "boom" (by decide)
/-- C1: strategy priority.  When the pkg-config probe succeeds, `main`'s
acquisition consists of that probe alone — no prebuilt probe, no fetch, no
build, no spawned process.  When pkg-config fails and the prebuilt probe
succeeds, the acquisition performs no spawn and no fetch activity (no marker
check, no clone), so neither fetch nor build runs. -/
theorem C1_priority_order :
    (∀ (w : World) (lib : PkgLibrary), w.pkgConfig = some lib →
      mainAcquire w = ([Event.probeSystem true], MainRes.ok (Paths.fromPkg lib))) ∧
    (∀ w : World, w.pkgConfig = none → w.fileExists (prebuiltPath w) = true →
      mainAcquire w = ([Event.probeSystem false,
                        Event.probePrebuilt (prebuiltPath w) true,
                        Event.cargoDirective (linkSearchDirective w),
                        Event.cargoDirective linkLibDirective],
                       MainRes.ok (Paths.mkDefault w)) ∧
      ∀ e ∈ (mainAcquire w).1, e.isSpawn = false ∧ e.isFetchActivity = false) := by
  constructor
  · intro w lib h
    unfold mainAcquire
    simp [h]
  · intro w h1 h2
    have hm : mainAcquire w = ([Event.probeSystem false,
                                Event.probePrebuilt (prebuiltPath w) true,
                                Event.cargoDirective (linkSearchDirective w),
                                Event.cargoDirective linkLibDirective],
                               MainRes.ok (Paths.mkDefault w)) := by
      unfold mainAcquire probe_prebuilt
      simp [h1, h2]
    refine ⟨hm, ?_⟩
    intro e he
    rw [hm] at he
    simp at he
    rcases he with rfl | rfl | rfl | rfl <;> exact ⟨rfl, rfl⟩

/-- Witness for C1 at concrete worlds for strategies 1 and 2. -/
theorem C1_priority_order_witness :
    mainAcquire wPkg = ([Event.probeSystem true],
      MainRes.ok (Paths.fromPkg ⟨["/usr/include/opus"], ["/usr/lib"]⟩)) ∧
    mainAcquire wPre = ([Event.probeSystem false,
        Event.probePrebuilt (prebuiltPath wPre) true,
        Event.cargoDirective (linkSearchDirective wPre),
        Event.cargoDirective linkLibDirective],
      MainRes.ok (Paths.mkDefault wPre)) :=
  ⟨C1_priority_order.1 wPkg ⟨["/usr/include/opus"], ["/usr/lib"]⟩ rfl,
   (C1_priority_order.2 wPre rfl (by decide)).1⟩

/-- C2 counterexample: in a world where pkg-config fails but the prebuilt
artifact exists (strategy 2 supplies the `Paths`, strategy 3 never runs — no
command is spawned at all), the two cargo directives are nevertheless
emitted, contradicting the claim that they are emitted only when strategy 3
produces the artifact. -/
theorem C2_counterexample :
    ((mainAcquire wPre).1.filter Event.isCargoDirective).length = 2 ∧
    (mainAcquire wPre).1.all (fun e => !e.isBuildStep) = true ∧
    (mainAcquire wPre).1.all (fun e => !e.isSpawn) = true ∧
    (mainAcquire wPre).2 = MainRes.ok (Paths.mkDefault wPre) := by
  refine ⟨by decide, by decide, by decide, by decide⟩

/-- C2 (amended): the two cargo directives are emitted exactly once whenever
the pkg-config probe fails and acquisition succeeds — that is, by strategy 2
as well as strategy 3, and never by strategy 1 — and the emitted link-search
path is `native=<search>/lib`, which for an absolute output directory equals
`<output>/dist/lib`; exactly one static-link directive naming `opus` is
emitted. -/
theorem C2_directives :
    (∀ (w : World) (lib : PkgLibrary), w.pkgConfig = some lib →
      (mainAcquire w).1.filter Event.isCargoDirective = []) ∧
    (∀ (w : World) (p : Paths), w.pkgConfig = none →
      (mainAcquire w).2 = MainRes.ok p →
      (mainAcquire w).1.filter Event.isCargoDirective =
        [Event.cargoDirective (linkSearchDirective w),
         Event.cargoDirective linkLibDirective]) ∧
    (∀ w : World, listPref ['/'] w.outDir.data = true →
      linkSearchDirective w =
        "cargo:rustc-link-search=native=" ++ pathPush (pathPush (output w) "dist") "lib") ∧
    linkLibDirective = "cargo:rustc-link-lib=static=opus" := by
  refine ⟨?_, ?_, ?_, rfl⟩
  · intro w lib h
    unfold mainAcquire
    simp [h, Event.isCargoDirective]
  · intro w p h1 h2
    cases hpre : w.fileExists (prebuiltPath w) with
    | true =>
      have hp : probe_prebuilt w = ([Event.probePrebuilt (prebuiltPath w) true],
                                    Except.ok (Paths.mkDefault w)) := by
        unfold probe_prebuilt
        simp [hpre]
      unfold mainAcquire
      simp [h1, hp, Event.isCargoDirective]
    | false =>
      have hp : probe_prebuilt w = ([Event.probePrebuilt (prebuiltPath w) false],
                                    Except.error ProbeErr.notFound) := by
        unfold probe_prebuilt
        simp [hpre]
      cases hdir : w.createDirFails with
      | true =>
        unfold mainAcquire at h2
        simp [h1, hp, hdir] at h2
      | false =>
        rcases hfe : fetch OS.unix w with ⟨t2, r2⟩
        have hno2 : t2.filter Event.isCargoDirective = [] := by
          rw [List.filter_eq_nil_iff]
          intro a ha
          have := fetch_events_no_cargo OS.unix w a (by rw [hfe]; exact ha)
          simp [this]
        cases r2 with
        | error e =>
          unfold mainAcquire at h2
          simp [h1, hp, hdir, hfe] at h2
        | ok u =>
          cases u
          rcases hb : build w with ⟨t3, r3⟩
          have hno3 : t3.filter Event.isCargoDirective = [] := by
            rw [List.filter_eq_nil_iff]
            intro a ha
            have hs := build_events_spawn w a (by rw [hb]; exact ha)
            have := Event.isCargo_eq_false_of_isSpawn a hs
            simp [this]
          cases r3 with
          | panic m =>
            unfold mainAcquire at h2
            simp [h1, hp, hdir, hfe, hb] at h2
          | err e =>
            unfold mainAcquire at h2
            simp [h1, hp, hdir, hfe, hb] at h2
          | ok q =>
            unfold mainAcquire
            simp [h1, hp, hdir, hfe, hb, List.filter_append, hno2, hno3,
                  Event.isCargoDirective]
  · intro w h
    unfold linkSearchDirective search output
    simp [pathPush, h]

/-- Witness for C2 (amended) at concrete worlds. -/
theorem C2_directives_witness :
    (mainAcquire wPkg).1.filter Event.isCargoDirective = [] ∧
    (mainAcquire wPre).1.filter Event.isCargoDirective =
      [Event.cargoDirective (linkSearchDirective wPre),
       Event.cargoDirective linkLibDirective] ∧
    linkSearchDirective wPre =
      "cargo:rustc-link-search=native=" ++ pathPush (pathPush (output wPre) "dist") "lib" :=
  ⟨C2_directives.1 wPkg ⟨["/usr/include/opus"], ["/usr/lib"]⟩ rfl,
   C2_directives.2.1 wPre (Paths.mkDefault wPre) rfl (by decide),
   C2_directives.2.2.1 wPre (by decide)⟩
/-- C8: the prebuilt probe checks `search()/lib` for the expected static
archive — `libopus.a` when the detected target environment is gnu, `opus.lib`
otherwise — returning the default `Paths` layout when the file exists; a miss
yields the not-found signal, which `main` never surfaces as a failure:
instead acquisition falls through to the from-source strategy (the output
directory is created and fetch begins). -/
theorem C8_prebuilt_probe :
    (∀ w : World, w.targetEnv = some "gnu" → libFileName w = "libopus.a") ∧
    (∀ w : World, w.targetEnv ≠ some "gnu" → libFileName w = "opus.lib") ∧
    (∀ w : World, prebuiltPath w = pathPush (pathPush (search w) "lib") (libFileName w)) ∧
    (∀ w : World, w.fileExists (prebuiltPath w) = true →
      probe_prebuilt w = ([Event.probePrebuilt (prebuiltPath w) true],
                          Except.ok (Paths.mkDefault w))) ∧
    (∀ w : World, w.fileExists (prebuiltPath w) = false →
      (probe_prebuilt w).2 = Except.error ProbeErr.notFound) ∧
    (∀ w : World, w.pkgConfig = none → w.fileExists (prebuiltPath w) = false →
      w.createDirFails = false →
      Event.createDir (output w) ∈ (mainAcquire w).1 ∧
      Event.checkMarker (markerPath OS.unix w) (w.fileExists (markerPath OS.unix w)) ∈
        (mainAcquire w).1) := by
  refine ⟨?_, ?_, ?_, ?_, ?_, ?_⟩
  · intro w h
    unfold libFileName
    simp [h]
  · intro w h
    unfold libFileName
    simp [h]
  · intro w
    rfl
  · intro w h
    unfold probe_prebuilt
    simp [h]
  · intro w h
    unfold probe_prebuilt
    simp [h]
  · intro w h1 h2 h3
    have hp : probe_prebuilt w = ([Event.probePrebuilt (prebuiltPath w) false],
                                  Except.error ProbeErr.notFound) := by
      unfold probe_prebuilt
      simp [h2]
    rcases hfe : fetch OS.unix w with ⟨t2, r2⟩
    have hcm : Event.checkMarker (markerPath OS.unix w) (w.fileExists (markerPath OS.unix w)) ∈ t2 := by
      have := fetch_checkMarker_mem OS.unix w
      rwa [hfe] at this
    cases r2 with
    | error e =>
      unfold mainAcquire
      simp [h1, hp, h3, hfe, List.mem_append, hcm]
    | ok u =>
      cases u
      rcases hb : build w with ⟨t3, r3⟩
      cases r3 with
      | panic m =>
        unfold mainAcquire
        simp [h1, hp, h3, hfe, hb, List.mem_append, hcm]
      | err e =>
        unfold mainAcquire
        simp [h1, hp, h3, hfe, hb, List.mem_append, hcm]
      | ok q =>
        unfold mainAcquire
        simp [h1, hp, h3, hfe, hb, List.mem_append, hcm]

/-- Witness for C8 at concrete worlds (artifact present; artifact absent with
fallback to the from-source strategy). -/
theorem C8_prebuilt_probe_witness :
    libFileName wPre = "libopus.a" ∧
    probe_prebuilt wPre = ([Event.probePrebuilt (prebuiltPath wPre) true],
                           Except.ok (Paths.mkDefault wPre)) ∧
    Event.createDir (output wCloneFail) ∈ (mainAcquire wCloneFail).1 :=
  ⟨C8_prebuilt_probe.1 wPre rfl,
   C8_prebuilt_probe.2.2.2.1 wPre (by decide),
   (C8_prebuilt_probe.2.2.2.2.2 wCloneFail rfl (by decide) rfl).1⟩

/-- C9: the binding-generation request is built from the synthesized wrapper
header (at `OUT_DIR/wrapper.h`, containing an include of the umbrella header
`opus.h`), one `-I` flag per entry of `include_paths` in order, and an
allowlist admitting exactly the functions prefixed `opus_`, the types
prefixed `opus_`, `OPUS_` or `Opus`, and the constants prefixed `OPUS_`,
rejecting every name outside those prefixes. -/
theorem C9_bindgen_request (w : World) (paths : Paths) :
    (mkBindgenRequest w paths).header = pathPush w.outDir "wrapper.h" ∧
    (mkBindgenRequest w paths).wrapperContent = "#include <opus.h>\n" ∧
    (mkBindgenRequest w paths).clangArgs = paths.include_paths.map (fun x => "-I" ++ x) ∧
    (∀ name, requestAdmitsFun (mkBindgenRequest w paths) name =
      listPref "opus_".data name.data) ∧
    (∀ name, requestAdmitsType (mkBindgenRequest w paths) name =
      (listPref "opus_".data name.data || listPref "OPUS_".data name.data ||
       listPref "Opus".data name.data)) ∧
    (∀ name, requestAdmitsVar (mkBindgenRequest w paths) name =
      listPref "OPUS_".data name.data) := by
  refine ⟨rfl, rfl, rfl, fun name => ?_, fun name => ?_, fun name => ?_⟩ <;>
    simp only [requestAdmitsFun, requestAdmitsType, requestAdmitsVar, mkBindgenRequest,
               List.any_cons, List.any_nil, Bool.or_false, Bool.or_assoc] <;>
    rfl
